import Mathlib

/-!
Verification of the EDA Data Accuracy Test Rule Engine.

This file gives a shallow embedding of the engine's core
(`eda_rule_engine/core/engine.py`, `eda_rule_engine/parsers/sql_generator.py`,
`eda_rule_engine/rules/manager.py`, `eda_rule_engine/core/reporter.py`) and
proves properties of it.  Python numbers are modelled exactly over `ℤ`/`ℚ`,
database rows as association lists of column name to value, and effectful
steps (running a query, persisting the last-run stamp) as explicit
`Except`-valued outcomes supplied to the embedded function, so that a caught
Python exception corresponds to an `Except.error` outcome.  Wall-clock fields
(`start_time`, `end_time`, `execution_time`) are omitted: no property below
mentions them.
-/

/-- A database cell value as returned by the query executor: an integer,
a rational (modelling Python floats exactly), a string, or SQL NULL. -/
inductive Value where
  | intV : ℤ → Value
  | ratV : ℚ → Value
  | strV : String → Value
  | nullV : Value
deriving DecidableEq

/-- Python truthiness of a cell value, used by
`_process_statistical_comparison_result`'s `if comparison_result['passed']:`. -/
def Value.truthy : Value → Bool
  | .intV n => decide (n ≠ 0)
  | .ratV q => decide (q ≠ 0)
  | .strV s => decide (s ≠ "")
  | .nullV => false

/-- A result row: mapping from column name to value (Python dict). -/
def Row : Type := List (String × Value)

instance : DecidableEq Row := by
  unfold Row
  infer_instance

/-- Key lookup in a row (`row['key']` / `'key' in row`). -/
def Row.lookup (r : Row) (k : String) : Option Value :=
  List.lookup k r

/-- Parameters dictionary of a rule (`rule.config.parameters`).  Each field is
`none` when the corresponding key is absent from the Python dict; reading an
absent required key raises `KeyError`, modelled as an `Except.error` in the
SQL generator. -/
structure RuleParams where
  min_value : Option ℚ := none
  max_value : Option ℚ := none
  pattern : Option String := none
  check_type : Option String := none
  operation : Option String := none
  compare_table : Option String := none
  compare_column : Option String := none
  threshold : Option ℚ := none
  join_key : Option String := none
deriving DecidableEq

/-- A validation rule (`rules/manager.py`, classes `Rule`/`RuleConfig`);
only the fields the engine and the SQL generator read are kept. -/
structure Rule where
  id : String
  name : String
  rule_type : String
  table : String
  column : Option String := none
  parameters : RuleParams := {}
deriving DecidableEq

/-- Rendering of `rule.config.column` inside a Python f-string: `None`
renders as the string `None`. -/
def columnText (c : Option String) : String :=
  match c with
  | some s => s
  | none => "None"

/-- Rendering of a numeric parameter inside a Python f-string. -/
def numText (q : ℚ) : String :=
  toString q

/-- The list of rule types accepted by `RuleManager.create_rule`
(`valid_types` in `rules/manager.py`). -/
def valid_rule_types : List String :=
  ["value_range", "value_template", "data_continuity",
   "statistical_comparison", "cross_table_comparison", "boolean_combination"]

/-- The rule-type validation performed by `RuleManager.create_rule`: raises
`ValueError` for a type outside `valid_types`, otherwise the rule is created
and stored. -/
def create_rule_type_check (rule_type : String) : Except String Unit :=
  if rule_type ∈ valid_rule_types then
    .ok ()
  else
    .error ("Invalid rule type: " ++ rule_type)

/-- `SQLGenerator._generate_value_range_sql`: builds the validation query
(rows outside the range, `LIMIT 1000`) and the count query (non-null rows).
Missing `min_value`/`max_value` raise `KeyError`. -/
def generate_value_range_sql (rule : Rule) : Except String (String × String) :=
  match rule.parameters.min_value, rule.parameters.max_value with
  | some min_val, some max_val =>
    let table := rule.table
    let column := columnText rule.column
    .ok ("SELECT * FROM " ++ table ++ " WHERE " ++ column ++ " IS NOT NULL AND ("
          ++ column ++ " < " ++ numText min_val ++ " OR " ++ column ++ " > "
          ++ numText max_val ++ ") LIMIT 1000",
         "SELECT COUNT(*) as total_count FROM " ++ table ++ " WHERE " ++ column
          ++ " IS NOT NULL")
  | _, _ => .error "KeyError"

/-- Does a string contain `@`, the first disjunct of the SQLite email
heuristic test `'email' in pattern.lower() or '@' in pattern`. -/
def containsAt (s : String) : Bool :=
  s.contains '@'

/-- Does a string contain the substring `email` (after lower-casing),
the other disjunct of the SQLite email heuristic test. -/
def containsEmailWord (s : String) : Bool :=
  decide (2 ≤ (s.toLower.splitOn "email").length)

/-- `SQLGenerator._generate_value_template_sql`: dialect-specific non-match
predicate; for SQLite an approximate LIKE-based check.  Missing `pattern`
raises `KeyError`. -/
def generate_value_template_sql (database_type : String) (rule : Rule) :
    Except String (String × String) :=
  match rule.parameters.pattern with
  | some pattern =>
    let table := rule.table
    let column := columnText rule.column
    let regex_condition :=
      if database_type = "postgresql" then
        column ++ " !~ '" ++ pattern ++ "'"
      else if database_type = "mysql" then
        column ++ " NOT REGEXP '" ++ pattern ++ "'"
      else
        if containsEmailWord pattern || containsAt pattern then
          "(" ++ column ++ " NOT LIKE '%@%.%' OR " ++ column ++ " LIKE '%@%@%' OR "
            ++ column ++ " LIKE '@%' OR " ++ column ++ " LIKE '%@' OR " ++ column
            ++ " LIKE '% %')"
        else
          column ++ " NOT GLOB '*@*.*'"
    .ok ("SELECT id, name, " ++ column ++ " FROM " ++ table ++ " WHERE " ++ column
          ++ " IS NOT NULL AND " ++ regex_condition ++ " LIMIT 1000",
         "SELECT COUNT(*) as total_count FROM " ++ table ++ " WHERE " ++ column
          ++ " IS NOT NULL")
  | none => .error "KeyError"

/-- `SQLGenerator._generate_data_continuity_sql`: gap detection when
`check_type == 'sequence_gaps'`, otherwise the null-value check; the count
query counts all rows. -/
def generate_data_continuity_sql (rule : Rule) : Except String (String × String) :=
  let table := rule.table
  let column := columnText rule.column
  let validation_sql :=
    if rule.parameters.check_type = some "sequence_gaps" then
      "WITH sequence_check AS (SELECT " ++ column ++ ", LAG(" ++ column
        ++ ") OVER (ORDER BY " ++ column ++ ") as prev_value FROM " ++ table
        ++ " WHERE " ++ column ++ " IS NOT NULL ORDER BY " ++ column
        ++ ") SELECT * FROM sequence_check WHERE prev_value IS NOT NULL AND "
        ++ column ++ " - prev_value > 1 LIMIT 1000"
    else
      "SELECT * FROM " ++ table ++ " WHERE " ++ column ++ " IS NULL LIMIT 1000"
  .ok (validation_sql,
       "SELECT COUNT(*) as total_count FROM " ++ table)

/-- Default applied by `params.get('threshold', 0.05)` in
`_generate_statistical_comparison_sql`. -/
def threshold_or_default (t : Option ℚ) : ℚ :=
  t.getD (1 / 20)

/-- `SQLGenerator._generate_statistical_comparison_sql`: aggregates both
columns and emits a single row with a CASE-computed pass flag; the count
query returns the nominal constant 1.  Missing `operation`, `compare_table`
or `compare_column` raise `KeyError`. -/
def generate_statistical_comparison_sql (rule : Rule) :
    Except String (String × String) :=
  match rule.parameters.operation, rule.parameters.compare_table,
      rule.parameters.compare_column with
  | some op, some compare_table, some compare_column =>
    let operation := op.toUpper
    let table := rule.table
    let column := columnText rule.column
    let threshold := threshold_or_default rule.parameters.threshold
    .ok ("WITH stats1 AS (SELECT " ++ operation ++ "(" ++ column
          ++ ") as value1 FROM " ++ table ++ " WHERE " ++ column
          ++ " IS NOT NULL), stats2 AS (SELECT " ++ operation ++ "("
          ++ compare_column ++ ") as value2 FROM " ++ compare_table ++ " WHERE "
          ++ compare_column ++ " IS NOT NULL) SELECT stats1.value1, stats2.value2, "
          ++ "ABS(stats1.value1 - stats2.value2) as difference, CASE WHEN "
          ++ "stats2.value2 = 0 THEN CASE WHEN stats1.value1 = 0 THEN 1 ELSE 0 END "
          ++ "ELSE CASE WHEN ABS(stats1.value1 - stats2.value2) / stats2.value2 <= "
          ++ numText threshold ++ " THEN 1 ELSE 0 END END as passed "
          ++ "FROM stats1, stats2",
         "SELECT 1 as total_count")
  | _, _, _ => .error "KeyError"

/-- Join-key resolution of `_generate_cross_table_comparison_sql`: the
hardcoded orders/order_items parent-child convention overrides the
`join_key` parameter on both sides; any other table pair uses `join_key`
verbatim on both sides. -/
def resolve_join_keys (table compare_table join_key : String) : String × String :=
  if table = "orders" ∧ compare_table = "order_items" then
    ("id", "order_id")
  else if table = "order_items" ∧ compare_table = "orders" then
    ("order_id", "id")
  else
    (join_key, join_key)

/-- Default applied by `params.get('join_key', 'id')`. -/
def join_key_or_default (k : Option String) : String :=
  k.getD "id"

/-- Default applied by `params.get('operation', 'SUM')`. -/
def operation_or_default (op : Option String) : String :=
  op.getD "SUM"

/-- `SQLGenerator._generate_cross_table_comparison_sql`: grouped aggregates on
both tables joined on the resolved keys, reporting groups whose aggregates
differ; the count query counts distinct subject-side join keys.  Missing
`compare_table`/`compare_column` raise `KeyError`. -/
def generate_cross_table_comparison_sql (rule : Rule) :
    Except String (String × String) :=
  match rule.parameters.compare_table, rule.parameters.compare_column with
  | some compare_table, some compare_column =>
    let table := rule.table
    let column := columnText rule.column
    let join_key := join_key_or_default rule.parameters.join_key
    let operation := operation_or_default rule.parameters.operation
    let keys := resolve_join_keys table compare_table join_key
    let table1_key := keys.1
    let table2_key := keys.2
    .ok ("WITH table1_agg AS (SELECT " ++ table1_key ++ ", " ++ operation ++ "("
          ++ column ++ ") as agg_value1 FROM " ++ table ++ " WHERE " ++ column
          ++ " IS NOT NULL GROUP BY " ++ table1_key
          ++ "), table2_agg AS (SELECT " ++ table2_key ++ ", " ++ operation ++ "("
          ++ compare_column ++ ") as agg_value2 FROM " ++ compare_table
          ++ " WHERE " ++ compare_column ++ " IS NOT NULL GROUP BY " ++ table2_key
          ++ ") SELECT t1." ++ table1_key ++ " as join_id, t1.agg_value1, "
          ++ "t2.agg_value2, ABS(t1.agg_value1 - COALESCE(t2.agg_value2, 0)) "
          ++ "as difference FROM table1_agg t1 LEFT JOIN table2_agg t2 ON t1."
          ++ table1_key ++ " = t2." ++ table2_key
          ++ " WHERE t1.agg_value1 != COALESCE(t2.agg_value2, 0) LIMIT 1000",
         "SELECT COUNT(DISTINCT " ++ table1_key ++ ") as total_count FROM "
          ++ table ++ " WHERE " ++ column ++ " IS NOT NULL")
  | _, _ => .error "KeyError"

/-- `SQLGenerator.generate_validation_sql`: dispatch on `rule.rule_type`,
raising `ValueError` for an unsupported type. -/
def generate_validation_sql (database_type : String) (rule : Rule) :
    Except String (String × String) :=
  if rule.rule_type = "value_range" then
    generate_value_range_sql rule
  else if rule.rule_type = "value_template" then
    generate_value_template_sql database_type rule
  else if rule.rule_type = "data_continuity" then
    generate_data_continuity_sql rule
  else if rule.rule_type = "statistical_comparison" then
    generate_statistical_comparison_sql rule
  else if rule.rule_type = "cross_table_comparison" then
    generate_cross_table_comparison_sql rule
  else
    .error ("Unsupported rule type: " ++ rule.rule_type)

/-! Semantics of the generated value_range SQL, evaluated over a table
modelled as the list of the target column's values (`none` = SQL NULL). -/

/-- WHERE clause of the value_range validation query:
`col IS NOT NULL AND (col < min_val OR col > max_val)`. -/
def value_range_fails (min_val max_val : ℚ) : Option ℚ → Bool
  | none => false
  | some x => decide (x < min_val) || decide (max_val < x)

/-- Rows returned by the value_range validation query: the failing rows,
capped by `LIMIT 1000`. -/
def value_range_validation_rows (tbl : List (Option ℚ)) (min_val max_val : ℚ) :
    List (Option ℚ) :=
  (tbl.filter (value_range_fails min_val max_val)).take 1000

/-- Value returned by the value_range count query:
`COUNT(*) ... WHERE col IS NOT NULL`. -/
def value_range_count (tbl : List (Option ℚ)) : ℕ :=
  (tbl.filter (fun v => v.isSome)).length

/-- Pass flag computed by the CASE expression of the generated
statistical_comparison SQL, for aggregate values `value1` (subject) and
`value2` (comparison): `CASE WHEN value2 = 0 THEN (CASE WHEN value1 = 0 THEN 1
ELSE 0 END) ELSE (CASE WHEN ABS(value1 - value2) / value2 <= threshold THEN 1
ELSE 0 END) END`. -/
def stat_passed_flag (value1 value2 threshold : ℚ) : Bool :=
  if value2 = 0 then
    (if value1 = 0 then true else false)
  else
    decide (|value1 - value2| / value2 ≤ threshold)

/-! The execution engine (`core/engine.py`). -/

/-- `RuleExecutionResult`: the mutable result object; wall-clock fields
omitted. -/
structure RuleExecutionResult where
  rule_name : String
  rule_id : String
  total_records : ℤ
  passed_records : ℤ
  failed_records : ℤ
  pass_rate : ℚ
  passed : Bool
  error : Option String
  failed_samples : List Row
deriving DecidableEq

/-- `RuleExecutionResult.__init__`. -/
def RuleExecutionResult.init (rule_name rule_id : String) : RuleExecutionResult :=
  { rule_name := rule_name
    rule_id := rule_id
    total_records := 0
    passed_records := 0
    failed_records := 0
    pass_rate := 0
    passed := false
    error := none
    failed_samples := [] }

/-- `RuleExecutionResult.finish`: seals the metrics.  For a positive record
count the pass rate is `passed_records / total_records * 100` and the rule
passes iff that rate is at least 100; otherwise rate 0 and failure. -/
def RuleExecutionResult.finish (r : RuleExecutionResult) : RuleExecutionResult :=
  if 0 < r.total_records then
    let rate := (r.passed_records : ℚ) / (r.total_records : ℚ) * 100
    { r with pass_rate := rate, passed := decide (100 ≤ rate) }
  else
    { r with pass_rate := 0, passed := false }

/-- `RuleEngine._process_value_range_result`: a non-empty validation result is
the list of failing rows; on an empty result nothing is updated. -/
def process_value_range_result (query_result : List Row)
    (r : RuleExecutionResult) : RuleExecutionResult :=
  match query_result with
  | [] => r
  | _ =>
    { r with failed_records := query_result.length
             passed_records := r.total_records - query_result.length
             failed_samples := query_result.take 5 }

/-- `RuleEngine._process_value_template_result` (same counting scheme). -/
def process_value_template_result (query_result : List Row)
    (r : RuleExecutionResult) : RuleExecutionResult :=
  match query_result with
  | [] => r
  | _ =>
    { r with failed_records := query_result.length
             passed_records := r.total_records - query_result.length
             failed_samples := query_result.take 5 }

/-- `RuleEngine._process_data_continuity_result` (same counting scheme). -/
def process_data_continuity_result (query_result : List Row)
    (r : RuleExecutionResult) : RuleExecutionResult :=
  match query_result with
  | [] => r
  | _ =>
    { r with failed_records := query_result.length
             passed_records := r.total_records - query_result.length
             failed_samples := query_result.take 5 }

/-- `RuleEngine._process_statistical_comparison_result`: reads the single
result row's `passed` flag and sets all-or-nothing record counts. -/
def process_statistical_comparison_result (query_result : List Row)
    (r : RuleExecutionResult) : RuleExecutionResult :=
  match query_result with
  | [] => r
  | row :: _ =>
    match row.lookup "passed" with
    | none => r
    | some v =>
      if v.truthy then
        { r with passed_records := r.total_records, failed_records := 0 }
      else
        { r with passed_records := 0
                 failed_records := r.total_records
                 failed_samples := [row] }

/-- `RuleEngine._process_cross_table_comparison_result` (same counting scheme
as value_range). -/
def process_cross_table_comparison_result (query_result : List Row)
    (r : RuleExecutionResult) : RuleExecutionResult :=
  match query_result with
  | [] => r
  | _ =>
    { r with failed_records := query_result.length
             passed_records := r.total_records - query_result.length
             failed_samples := query_result.take 5 }

/-- `RuleEngine._process_rule_result`: dispatch on the rule type, raising
`ValueError` for an unsupported one. -/
def process_rule_result (rule : Rule) (query_result : List Row)
    (r : RuleExecutionResult) : Except String RuleExecutionResult :=
  if rule.rule_type = "value_range" then
    .ok (process_value_range_result query_result r)
  else if rule.rule_type = "value_template" then
    .ok (process_value_template_result query_result r)
  else if rule.rule_type = "data_continuity" then
    .ok (process_data_continuity_result query_result r)
  else if rule.rule_type = "statistical_comparison" then
    .ok (process_statistical_comparison_result query_result r)
  else if rule.rule_type = "cross_table_comparison" then
    .ok (process_cross_table_comparison_result query_result r)
  else
    .error ("Unsupported rule type: " ++ rule.rule_type)

/-- Extraction `count_result[0]['total_count'] if count_result else 0`:
an empty result gives 0; a present non-integer or absent key raises. -/
def total_count_of (count_result : List Row) : Except String ℤ :=
  match count_result with
  | [] => .ok 0
  | row :: _ =>
    match row.lookup "total_count" with
    | some (.intV n) => .ok n
    | some _ => .error "TypeError"
    | none => .error "KeyError"

/-- Outcomes of the effectful steps taken inside `execute_rule`'s try block:
the two query-executor calls and the last-run stamp
(`rule_manager.update_last_run`, which writes the rules file and can raise
an I/O error).  `Except.error` is a raised Python exception. -/
structure QueryEnv where
  count_outcome : Except String (List Row)
  validation_outcome : Except String (List Row)
  update_last_run_outcome : Except String Unit

/-- `RuleEngine.execute_rule` from the point where the result object exists:
the try block generates SQL, runs the count query, runs the validation query,
processes rows per rule type and stamps the last run; any exception along the
way is caught and stored in `result.error`, with all mutations made before
the exception kept; finally the result is sealed with `finish`.  The engine
is constructed with the default SQLite generator. -/
def execute_rule (rule : Rule) (env : QueryEnv) : RuleExecutionResult :=
  let r0 := RuleExecutionResult.init rule.name rule.id
  let sealed :=
    match generate_validation_sql "sqlite" rule with
    | .error e => { r0 with error := some e }
    | .ok _ =>
      match env.count_outcome with
      | .error e => { r0 with error := some e }
      | .ok count_result =>
        match total_count_of count_result with
        | .error e => { r0 with error := some e }
        | .ok n =>
          let r1 := { r0 with total_records := n }
          match env.validation_outcome with
          | .error e => { r1 with error := some e }
          | .ok validation_result =>
            match process_rule_result rule validation_result r1 with
            | .error e => { r1 with error := some e }
            | .ok r2 =>
              match env.update_last_run_outcome with
              | .error e => { r2 with error := some e }
              | .ok _ => r2
  sealed.finish

/-- One submitted task of `execute_batch_rules`: the rule's name and id
(from `future_to_rule`) and the outcome of `future.result()` — either the
sealed result returned by `execute_rule` or an exception that escaped it. -/
structure BatchTask where
  rule_name : String
  rule_id : String
  outcome : Except String RuleExecutionResult

/-- The per-future body of `execute_batch_rules`'s `as_completed` loop: a
normal outcome is appended as is; an exception is turned into a synthesized
failed result (`error_result`) for the same rule. -/
def batch_task_result (t : BatchTask) : RuleExecutionResult :=
  match t.outcome with
  | .ok r => r
  | .error e =>
    ({ RuleExecutionResult.init t.rule_name t.rule_id with
        error := some e }).finish

/-- `RuleEngine.execute_batch_rules` over the selected rules, given the order
in which their futures complete (`as_completed` yields every submitted future
exactly once, in an arbitrary order). -/
def execute_batch_rules (completion_order : List BatchTask) :
    List RuleExecutionResult :=
  completion_order.map batch_task_result

/-! Concrete rules, environments and history entries used to evaluate the
engine at specific inputs. -/

/-- A value_range rule with bounds 0 and 10. -/
def range_rule : Rule :=
  { id := "v1", name := "range", rule_type := "value_range", table := "t",
    column := some "c",
    parameters := { min_value := some 0, max_value := some 10 } }

/-- Environment in which the count query reports 5 records and the validation
query returns zero failing rows. -/
def zero_failures_env : QueryEnv :=
  { count_outcome := .ok [[("total_count", .intV 5)]]
    validation_outcome := .ok []
    update_last_run_outcome := .ok () }

/-- A statistical_comparison rule with all required parameters. -/
def stat_rule : Rule :=
  { id := "s1", name := "stat", rule_type := "statistical_comparison",
    table := "t", column := some "c",
    parameters := { operation := some "sum", compare_table := some "t2",
                    compare_column := some "c2" } }

/-- A data_continuity rule (its SQL generation reads no numeric parameter). -/
def continuity_rule : Rule :=
  { id := "d1", name := "cont", rule_type := "data_continuity", table := "t",
    column := some "c" }

/-- The single row produced by the statistical_comparison query for aggregate
values `value1`, `value2` and the given threshold. -/
def stat_query_row (value1 value2 threshold : ℚ) : Row :=
  [("value1", .ratV value1), ("value2", .ratV value2),
   ("difference", .ratV |value1 - value2|),
   ("passed", .intV (if stat_passed_flag value1 value2 threshold then 1 else 0))]

/-- Environment of a successful statistical_comparison execution with the
given aggregate values. -/
def stat_env (value1 value2 threshold : ℚ) : QueryEnv :=
  { count_outcome := .ok [[("total_count", .intV 1)]]
    validation_outcome := .ok [stat_query_row value1 value2 threshold]
    update_last_run_outcome := .ok () }

/-- Environment in which both queries and the result processing succeed with
a fully passing statistical comparison, but stamping the last run raises. -/
def late_error_env : QueryEnv :=
  { count_outcome := .ok [[("total_count", .intV 1)]]
    validation_outcome := .ok [[("passed", .intV 1)]]
    update_last_run_outcome := .error "OSError: disk full" }

/-- Environment in which the count query raises. -/
def count_error_env : QueryEnv :=
  { count_outcome := .error "connection refused"
    validation_outcome := .ok []
    update_last_run_outcome := .ok () }

/-! The reporter (`core/reporter.py`).  A timestamp is modelled as a rational
number of days since an arbitrary epoch (`none` when
`datetime.fromisoformat` would fail), so the calendar date taken by
`timestamp[:10]` is its floor. -/

/-- One record of the results history, as written by
`Reporter.record_execution_result` from `RuleExecutionResult.to_dict()`. -/
structure HistoryEntry where
  rule_name : String
  rule_id : String
  passed : Bool
  total_records : ℤ
  passed_records : ℤ
  failed_records : ℤ
  pass_rate : ℚ
  error : Option String
  timestamp : Option ℚ
deriving DecidableEq

/-- Window filter of `generate_summary_report`: keep entries whose timestamp
parses and is at least `now - timedelta(days=days)`; parse failures are
skipped by the bare `except`. -/
def entry_in_window (now : ℚ) (days : ℤ) (e : HistoryEntry) : Bool :=
  match e.timestamp with
  | none => false
  | some t => decide (now - (days : ℚ) ≤ t)

/-- The `filtered_results` list of `generate_summary_report`. -/
def filtered_results (history : List HistoryEntry) (now : ℚ) (days : ℤ) :
    List HistoryEntry :=
  history.filter (entry_in_window now days)

/-- First-occurrence deduplication, the key order of a Python dict built by
insertion (and the member set of `set(...)`). -/
def first_occurrences {α : Type} [DecidableEq α] (seen : List α) :
    List α → List α
  | [] => []
  | x :: xs =>
    if x ∈ seen then
      first_occurrences seen xs
    else
      x :: first_occurrences (x :: seen) xs

/-- Distinct elements of a list in first-occurrence order. -/
def distinct_keys {α : Type} [DecidableEq α] (l : List α) : List α :=
  first_occurrences [] l

/-- One entry of the `top_issues` list. -/
structure IssueEntry where
  rule_name : String
  rule_id : String
  avg_pass_rate : ℚ
  failure_rate : ℚ
  executions : ℕ
deriving DecidableEq

/-- The per-rule statistics row accumulated by `generate_summary_report`'s
`rule_stats` dict for one rule id, and the issue entry computed from it:
executions, accumulated pass rate, failure count over the filtered entries
of that rule. -/
def issue_for (filtered : List HistoryEntry) (rid : String) : IssueEntry :=
  let entries := filtered.filter (fun e => e.rule_id = rid)
  let rule_name :=
    match entries with
    | [] => ""
    | e :: _ => e.rule_name
  let executions := entries.length
  let total_pass_rate := (entries.map (fun e => e.pass_rate)).sum
  let failure_count := (entries.filter (fun e => !e.passed)).length
  { rule_name := rule_name
    rule_id := rid
    avg_pass_rate := total_pass_rate / (executions : ℚ)
    failure_rate := ((failure_count : ℚ) / (executions : ℚ)) * 100
    executions := executions }

/-- The `top_issues` list before sorting: one issue per distinct rule id, in
dict insertion order. -/
def unsorted_issues (filtered : List HistoryEntry) : List IssueEntry :=
  (distinct_keys (filtered.map (fun e => e.rule_id))).map (issue_for filtered)

/-- Sort order of `top_issues.sort(key=lambda x: x['failure_rate'],
reverse=True)`: descending failure rate. -/
def issue_ge (a b : IssueEntry) : Prop :=
  b.failure_rate ≤ a.failure_rate

instance : DecidableRel issue_ge := by
  intro a b
  unfold issue_ge
  infer_instance

instance : IsTotal IssueEntry issue_ge :=
  ⟨fun a b => le_total b.failure_rate a.failure_rate⟩

instance : IsTrans IssueEntry issue_ge :=
  ⟨fun _ _ _ h1 h2 => le_trans h2 h1⟩

/-- The summary report returned by `generate_summary_report`. -/
structure SummaryReport where
  overall_score : ℚ
  total_rules : ℕ
  avg_pass_rate : ℚ
  total_executions : ℕ
  top_issues : List IssueEntry
deriving DecidableEq

/-- `Reporter.generate_summary_report`: filters the history to the window,
returns the all-zero report on an empty filtered list, otherwise computes the
metrics, the capped overall score (Python evaluates
`total_executions / (days * 10)`, a `ZeroDivisionError` when `days == 0`,
modelled as the `Except.error` branch) and the issues sorted descending by
failure rate (Python's stable sort, modelled by stable insertion sort). -/
def generate_summary_report (history : List HistoryEntry) (now : ℚ)
    (days : ℤ) : Except String SummaryReport :=
  let filtered := filtered_results history now days
  if filtered = [] then
    .ok { overall_score := 0, total_rules := 0, avg_pass_rate := 0,
          total_executions := 0, top_issues := [] }
  else
    let total_executions := filtered.length
    let total_rules := (distinct_keys (filtered.map (fun e => e.rule_id))).length
    let pass_rates := filtered.map (fun e => e.pass_rate)
    let avg_pass_rate :=
      if pass_rates = [] then 0 else pass_rates.sum / (pass_rates.length : ℚ)
    if (days * 10 : ℤ) = 0 then
      .error "ZeroDivisionError: division by zero"
    else
      let overall_score :=
        min 100 (avg_pass_rate * (8 / 10)
          + ((total_executions : ℚ) / ((days : ℚ) * 10)) * (2 / 10))
      let top_issues := (unsorted_issues filtered).insertionSort issue_ge
      .ok { overall_score := overall_score
            total_rules := total_rules
            avg_pass_rate := avg_pass_rate
            total_executions := total_executions
            top_issues := top_issues }

/-- Filter of `generate_trend_report`: entries of the given rule, inside the
window, with a parsable timestamp. -/
def trend_filter (history : List HistoryEntry) (rid : String) (now : ℚ)
    (days : ℤ) : List HistoryEntry :=
  history.filter (fun e => entry_in_window now days e && decide (e.rule_id = rid))

/-- Calendar day of an entry (`timestamp[:10]`), meaningful on entries that
passed the window filter (their timestamp is present). -/
def entry_day (e : HistoryEntry) : ℤ :=
  match e.timestamp with
  | some t => ⌊t⌋
  | none => 0

/-- One daily trend point. -/
structure TrendPoint where
  day : ℤ
  pass_rate : ℚ
  executions : ℕ
  total_records : ℤ
deriving DecidableEq

/-- The `trend_data` list: daily buckets in ascending date order
(`sorted(daily_stats.items())`), each with its execution count, mean pass
rate and total record count. -/
def trend_data_of (rule_results : List HistoryEntry) : List TrendPoint :=
  let day_keys :=
    (distinct_keys (rule_results.map entry_day)).insertionSort (fun a b => a ≤ b)
  day_keys.map (fun d =>
    let entries := rule_results.filter (fun e => entry_day e = d)
    { day := d
      pass_rate := (entries.map (fun e => e.pass_rate)).sum / (entries.length : ℚ)
      executions := entries.length
      total_records := (entries.map (fun e => e.total_records)).sum })

/-- Mean pass rate of a list of daily trend points, the quantity the
specification's direction classification speaks about. -/
def daily_mean (pts : List TrendPoint) : ℚ :=
  (pts.map (fun d => d.pass_rate)).sum / ((pts.length : ℕ) : ℚ)

/-- The trend report returned by `generate_trend_report`. -/
structure TrendReport where
  rule_id : String
  trend_data : List TrendPoint
  average_pass_rate : ℚ
  trend_direction : String
deriving DecidableEq

/-- `Reporter.generate_trend_report`: an empty filtered set returns the empty
report with direction `stable`; otherwise daily buckets are built and, with
at least two buckets, the mean of the last at-most-7 points
(`sum(trend_data[-7:]) / min(7, n)`) is compared against
`sum(trend_data[:-7]) / max(1, n - 7)` with a 1-point dead band; with exactly
one bucket the direction is `insufficient_data`. -/
def generate_trend_report (history : List HistoryEntry) (rid : String)
    (now : ℚ) (days : ℤ) : TrendReport :=
  let rule_results := trend_filter history rid now days
  if rule_results = [] then
    { rule_id := rid, trend_data := [], average_pass_rate := 0,
      trend_direction := "stable" }
  else
    let trend_data := trend_data_of rule_results
    let all_pass_rates := trend_data.map (fun d => d.pass_rate)
    let average_pass_rate :=
      if all_pass_rates = [] then 0
      else all_pass_rates.sum / (all_pass_rates.length : ℚ)
    let n := trend_data.length
    let trend_direction :=
      if 2 ≤ n then
        let recent_avg :=
          ((trend_data.drop (n - 7)).map (fun d => d.pass_rate)).sum
            / ((min 7 n : ℕ) : ℚ)
        let older_avg :=
          ((trend_data.take (n - 7)).map (fun d => d.pass_rate)).sum
            / ((max 1 (n - 7) : ℕ) : ℚ)
        if older_avg + 1 < recent_avg then "improving"
        else if recent_avg < older_avg - 1 then "declining"
        else "stable"
      else "insufficient_data"
    { rule_id := rid
      trend_data := trend_data
      average_pass_rate := average_pass_rate
      trend_direction := trend_direction }

/-- A result object with 2 total records of which 1 passed, before
sealing. -/
def half_passed_result : RuleExecutionResult :=
  { RuleExecutionResult.init "r" "1" with total_records := 2, passed_records := 1 }

/-- A history entry of a fully passing execution stamped at time 0. -/
def sample_entry : HistoryEntry :=
  { rule_name := "r", rule_id := "1", passed := true, total_records := 1,
    passed_records := 1, failed_records := 0, pass_rate := 100, error := none,
    timestamp := some 0 }

/-! Helper lemmas about `finish`. -/

/-- Sealing a result does not change its error field. -/
theorem RuleExecutionResult.finish_error (r : RuleExecutionResult) :
    r.finish.error = r.error := by
  unfold RuleExecutionResult.finish
  split <;> rfl

/-- Sealing a result does not change its record counts. -/
theorem RuleExecutionResult.finish_records (r : RuleExecutionResult) :
    r.finish.total_records = r.total_records ∧
    r.finish.passed_records = r.passed_records ∧
    r.finish.failed_records = r.failed_records := by
  unfold RuleExecutionResult.finish
  split <;> exact ⟨rfl, rfl, rfl⟩

/-- Sealing a result does not change its rule name and id. -/
theorem RuleExecutionResult.finish_names (r : RuleExecutionResult) :
    r.finish.rule_name = r.rule_name ∧ r.finish.rule_id = r.rule_id := by
  unfold RuleExecutionResult.finish
  split <;> exact ⟨rfl, rfl⟩

/-- A result sealed with zero passed records is always a failure with rate
zero, whatever its total. -/
theorem RuleExecutionResult.finish_of_zero_passed (r : RuleExecutionResult)
    (h : r.passed_records = 0) :
    r.finish.pass_rate = 0 ∧ r.finish.passed = false := by
  unfold RuleExecutionResult.finish
  split
  · simp [h]
  · exact ⟨rfl, rfl⟩

/-- C2: for every result on which finish() has been called, a positive total
gives pass rate passed/total*100 with passed true iff that rate is at least
100, and a zero total gives rate 0 and passed false. -/
theorem C2_finish_metrics (r : RuleExecutionResult) :
    (0 < r.total_records →
      r.finish.pass_rate = (r.passed_records : ℚ) / (r.total_records : ℚ) * 100 ∧
      (r.finish.passed = true ↔ 100 ≤ r.finish.pass_rate)) ∧
    (r.total_records = 0 →
      r.finish.pass_rate = 0 ∧ r.finish.passed = false) := by
  constructor
  · intro h
    unfold RuleExecutionResult.finish
    rw [if_pos h]
    exact ⟨rfl, by simp⟩
  · intro h
    unfold RuleExecutionResult.finish
    rw [if_neg (by omega)]
    exact ⟨rfl, rfl⟩

/-- Witness for C2 at a result with 1 of 2 records passing and at a result
with no records. -/
theorem C2_finish_metrics_witness :
    (0 < half_passed_result.total_records ∧
      half_passed_result.finish.pass_rate =
        (half_passed_result.passed_records : ℚ) /
          (half_passed_result.total_records : ℚ) * 100 ∧
      (half_passed_result.finish.passed = true ↔
        100 ≤ half_passed_result.finish.pass_rate)) ∧
    ((RuleExecutionResult.init "r" "1").total_records = 0 ∧
      (RuleExecutionResult.init "r" "1").finish.pass_rate = 0 ∧
      (RuleExecutionResult.init "r" "1").finish.passed = false) := by
  refine ⟨⟨by decide, ?_, ?_⟩, by decide,
    ((C2_finish_metrics (RuleExecutionResult.init "r" "1")).2 (by decide)).1,
    ((C2_finish_metrics (RuleExecutionResult.init "r" "1")).2 (by decide)).2⟩
  · exact ((C2_finish_metrics half_passed_result).1 (by decide)).1
  · exact ((C2_finish_metrics half_passed_result).1 (by decide)).2

/-- C7: join-key resolution depends only on the subject/comparison table-name
pair; the orders/order_items convention substitutes per-side keys, every
other pair uses the join_key parameter (default id) verbatim on both
sides. -/
theorem C7_join_key_resolution (table compare_table join_key : String) :
    ((table = "orders" ∧ compare_table = "order_items") →
      resolve_join_keys table compare_table join_key = ("id", "order_id")) ∧
    ((table = "order_items" ∧ compare_table = "orders") →
      resolve_join_keys table compare_table join_key = ("order_id", "id")) ∧
    ((¬(table = "orders" ∧ compare_table = "order_items") ∧
      ¬(table = "order_items" ∧ compare_table = "orders")) →
      resolve_join_keys table compare_table join_key = (join_key, join_key)) ∧
    join_key_or_default none = "id" := by
  unfold resolve_join_keys join_key_or_default
  refine ⟨?_, ?_, ?_, rfl⟩
  · rintro ⟨h1, h2⟩
    subst h1
    subst h2
    simp
  · rintro ⟨h1, h2⟩
    subst h1
    subst h2
    simp
  · rintro ⟨h1, h2⟩
    rw [if_neg h1, if_neg h2]

/-- Witness for C7 at the convention pair (both orders), and at an unrelated
pair with a custom key. -/
theorem C7_join_key_resolution_witness :
    resolve_join_keys "orders" "order_items" "k" = ("id", "order_id") ∧
    resolve_join_keys "order_items" "orders" "k" = ("order_id", "id") ∧
    resolve_join_keys "users" "accounts" "uid" = ("uid", "uid") :=
  ⟨(C7_join_key_resolution "orders" "order_items" "k").1 ⟨rfl, rfl⟩,
   (C7_join_key_resolution "order_items" "orders" "k").2.1 ⟨rfl, rfl⟩,
   (C7_join_key_resolution "users" "accounts" "uid").2.2.1
     ⟨by decide, by decide⟩⟩

/-- C10: the rule type boolean_combination is accepted by create_rule's
validation, yet SQL generation fails for every rule of that type with an
unsupported-rule-type error. -/
theorem C10_boolean_combination_gap :
    create_rule_type_check "boolean_combination" = .ok () ∧
    (∀ (database_type : String) (rule : Rule),
      rule.rule_type = "boolean_combination" →
      generate_validation_sql database_type rule =
        .error ("Unsupported rule type: boolean_combination")) := by
  constructor
  · rfl
  · intro database_type rule h
    unfold generate_validation_sql
    rw [h]
    simp

/-- Witness for C10 at a concrete boolean_combination rule. -/
theorem C10_boolean_combination_gap_witness :
    generate_validation_sql "sqlite"
        { id := "b1", name := "combo", rule_type := "boolean_combination",
          table := "t" } =
      .error "Unsupported rule type: boolean_combination" :=
  C10_boolean_combination_gap.2 "sqlite"
    { id := "b1", name := "combo", rule_type := "boolean_combination",
      table := "t" } rfl

/-- C4: a batch over N selected rules yields exactly N results, a permutation
of the per-rule outcomes whatever the completion order, and a rule whose
execution raised past the executor yields a synthesized failed result
carrying the exception. -/
theorem C4_batch_isolation (tasks completion_order : List BatchTask)
    (h : completion_order.Perm tasks) :
    (execute_batch_rules completion_order).length = tasks.length ∧
    (execute_batch_rules completion_order).Perm (tasks.map batch_task_result) ∧
    (∀ t ∈ tasks, ∀ e, t.outcome = .error e →
      (batch_task_result t).error = some e ∧
      (batch_task_result t).passed = false ∧
      (batch_task_result t).pass_rate = 0 ∧
      (batch_task_result t).rule_name = t.rule_name ∧
      (batch_task_result t).rule_id = t.rule_id) := by
  refine ⟨?_, h.map batch_task_result, ?_⟩
  · unfold execute_batch_rules
    rw [List.length_map, h.length_eq]
  · intro t _ e he
    unfold batch_task_result
    rw [he]
    refine ⟨?_, ?_, ?_, ?_, ?_⟩
    · rw [RuleExecutionResult.finish_error]
    · exact (RuleExecutionResult.finish_of_zero_passed _ rfl).2
    · exact (RuleExecutionResult.finish_of_zero_passed _ rfl).1
    · exact (RuleExecutionResult.finish_names _).1
    · exact (RuleExecutionResult.finish_names _).2

/-- Witness for C4: two tasks, one raising, completed in swapped order. -/
theorem C4_batch_isolation_witness :
    (execute_batch_rules
        [⟨"b", "2", .error "boom"⟩,
         ⟨"a", "1", .ok (RuleExecutionResult.init "a" "1")⟩]).length =
      ([⟨"a", "1", .ok (RuleExecutionResult.init "a" "1")⟩,
        ⟨"b", "2", .error "boom"⟩] : List BatchTask).length ∧
    (batch_task_result ⟨"b", "2", .error "boom"⟩).error = some "boom" ∧
    (batch_task_result ⟨"b", "2", .error "boom"⟩).passed = false := by
  refine ⟨(C4_batch_isolation _ _ (List.Perm.swap _ _ _)).1, ?_, ?_⟩
  · exact ((C4_batch_isolation
      [⟨"a", "1", .ok (RuleExecutionResult.init "a" "1")⟩,
       ⟨"b", "2", .error "boom"⟩] _ (List.Perm.swap _ _ _)).2.2
      ⟨"b", "2", .error "boom"⟩ (by simp) "boom" rfl).1
  · exact ((C4_batch_isolation
      [⟨"a", "1", .ok (RuleExecutionResult.init "a" "1")⟩,
       ⟨"b", "2", .error "boom"⟩] _ (List.Perm.swap _ _ _)).2.2
      ⟨"b", "2", .error "boom"⟩ (by simp) "boom" rfl).2.1

/-- C5: the value_range validation query flags only non-null values strictly
outside the closed range (boundary values and nulls are never flagged),
returns at most 1000 rows — all failing rows when the table fits the cap —
and the count query counts exactly the non-null rows. -/
theorem C5_value_range_sql_semantics (tbl : List (Option ℚ))
    (min_val max_val : ℚ) (h : min_val ≤ max_val) :
    (∀ r ∈ value_range_validation_rows tbl min_val max_val,
      ∃ x, r = some x ∧ (x < min_val ∨ max_val < x)) ∧
    some min_val ∉ value_range_validation_rows tbl min_val max_val ∧
    some max_val ∉ value_range_validation_rows tbl min_val max_val ∧
    none ∉ value_range_validation_rows tbl min_val max_val ∧
    (value_range_validation_rows tbl min_val max_val).length ≤ 1000 ∧
    (tbl.length ≤ 1000 → ∀ x, some x ∈ tbl → (x < min_val ∨ max_val < x) →
      some x ∈ value_range_validation_rows tbl min_val max_val) ∧
    value_range_count tbl = (tbl.filter (fun v => v ≠ none)).length := by
  have main : ∀ r ∈ value_range_validation_rows tbl min_val max_val,
      ∃ x, r = some x ∧ (x < min_val ∨ max_val < x) := by
    intro r hr
    have hr2 := List.mem_of_mem_take hr
    have hf := (List.mem_filter.mp hr2).2
    cases r with
    | none => simp [value_range_fails] at hf
    | some x =>
      refine ⟨x, rfl, ?_⟩
      simpa [value_range_fails] using hf
  refine ⟨main, ?_, ?_, ?_, List.length_take_le _ _, ?_, ?_⟩
  · intro hmem
    obtain ⟨x, hx, hcase⟩ := main _ hmem
    have hx' : x = min_val := by
      cases hx
      rfl
    rcases hcase with h1 | h2 <;> linarith [hx'.le, hx'.ge]
  · intro hmem
    obtain ⟨x, hx, hcase⟩ := main _ hmem
    have hx' : x = max_val := by
      cases hx
      rfl
    rcases hcase with h1 | h2 <;> linarith [hx'.le, hx'.ge]
  · intro hmem
    obtain ⟨x, hx, _⟩ := main _ hmem
    cases hx
  · intro hlen x hx hout
    unfold value_range_validation_rows
    rw [List.take_of_length_le (le_trans (List.length_filter_le _ _) hlen)]
    exact List.mem_filter.mpr ⟨hx, by simpa [value_range_fails] using hout⟩
  · unfold value_range_count
    have hfun : (fun v : Option ℚ => v.isSome) =
        (fun v : Option ℚ => decide (v ≠ none)) := by
      funext v
      cases v <;> simp
    rw [hfun]

/-- Witness for C5 on the table [5, NULL, 20] with range [0, 10]. -/
theorem C5_value_range_sql_semantics_witness :
    (0 : ℚ) ≤ 10 ∧
    some (0 : ℚ) ∉ value_range_validation_rows [some 5, none, some 20] 0 10 ∧
    none ∉ value_range_validation_rows [some 5, none, some 20] 0 10 ∧
    (value_range_validation_rows [some 5, none, some 20] 0 10).length ≤ 1000 ∧
    value_range_count [some 5, none, some 20] =
      (([some 5, none, some 20] : List (Option ℚ)).filter
        (fun v => v ≠ none)).length := by
  refine ⟨by decide, ?_, ?_, ?_, ?_⟩
  · exact (C5_value_range_sql_semantics [some 5, none, some 20] 0 10
      (by decide)).2.1
  · exact (C5_value_range_sql_semantics [some 5, none, some 20] 0 10
      (by decide)).2.2.2.1
  · exact (C5_value_range_sql_semantics [some 5, none, some 20] 0 10
      (by decide)).2.2.2.2.1
  · exact (C5_value_range_sql_semantics [some 5, none, some 20] 0 10
      (by decide)).2.2.2.2.2.2

/-- C6: the statistical_comparison pass flag is true exactly when both
aggregates are zero or the comparison aggregate is non-zero with relative
difference within the threshold (default 0.05); the executor turns a true
flag into all-records-passed and a false flag into all-records-failed, so
the executed rule passes iff the flag is true. -/
theorem C6_statistical_comparison_semantics (value1 value2 threshold : ℚ) :
    (stat_passed_flag value1 value2 threshold = true ↔
      ((value1 = 0 ∧ value2 = 0) ∨
        (value2 ≠ 0 ∧ |value1 - value2| / value2 ≤ threshold))) ∧
    (∀ r : RuleExecutionResult,
      process_statistical_comparison_result
          [stat_query_row value1 value2 threshold] r =
        (if stat_passed_flag value1 value2 threshold then { r with passed_records := r.total_records, failed_records := 0 } else { r with passed_records := 0, failed_records := r.total_records, failed_samples := [stat_query_row value1 value2 threshold] })) ∧
    (execute_rule stat_rule (stat_env value1 value2 threshold)).passed =
      stat_passed_flag value1 value2 threshold ∧
    (execute_rule stat_rule (stat_env value1 value2 threshold)).passed_records =
      (if stat_passed_flag value1 value2 threshold then 1 else 0) ∧
    (execute_rule stat_rule (stat_env value1 value2 threshold)).failed_records =
      (if stat_passed_flag value1 value2 threshold then 0 else 1) ∧
    threshold_or_default none = 1 / 20 := by
  have hiff : stat_passed_flag value1 value2 threshold = true ↔
      ((value1 = 0 ∧ value2 = 0) ∨
        (value2 ≠ 0 ∧ |value1 - value2| / value2 ≤ threshold)) := by
    unfold stat_passed_flag
    by_cases h2 : value2 = 0
    · by_cases h1 : value1 = 0 <;> simp [h1, h2]
    · simp [h2]
  have hproc : ∀ r : RuleExecutionResult,
      process_statistical_comparison_result
          [stat_query_row value1 value2 threshold] r =
        (if stat_passed_flag value1 value2 threshold then { r with passed_records := r.total_records, failed_records := 0 } else { r with passed_records := 0, failed_records := r.total_records, failed_samples := [stat_query_row value1 value2 threshold] }) := by
    intro r
    unfold process_statistical_comparison_result stat_query_row Row.lookup
    cases hf : stat_passed_flag value1 value2 threshold <;>
      simp [List.lookup, hf, Value.truthy]
  refine ⟨hiff, hproc, ?_, ?_, ?_, rfl⟩ <;>
  · cases hf : stat_passed_flag value1 value2 threshold <;>
      simp [execute_rule, generate_validation_sql, stat_rule,
        generate_statistical_comparison_sql, stat_env, total_count_of,
        Row.lookup, List.lookup, process_rule_result,
        process_statistical_comparison_result, stat_query_row, hf,
        Value.truthy, RuleExecutionResult.finish, RuleExecutionResult.init]

/-- C1 (failing input): a value_range execution with 5 counted records and an
empty validation result (zero failing rows) completes without error, yet the
sealed result keeps passed_records = 0, so passed + failed differs from
total, the pass rate is 0 and the rule is reported failed. -/
theorem C1_zero_failures_break_accounting :
    (execute_rule range_rule zero_failures_env).error = none ∧
    (execute_rule range_rule zero_failures_env).total_records = 5 ∧
    (execute_rule range_rule zero_failures_env).passed_records = 0 ∧
    (execute_rule range_rule zero_failures_env).failed_records = 0 ∧
    (execute_rule range_rule zero_failures_env).passed_records +
        (execute_rule range_rule zero_failures_env).failed_records ≠
      (execute_rule range_rule zero_failures_env).total_records ∧
    (execute_rule range_rule zero_failures_env).pass_rate = 0 ∧
    (execute_rule range_rule zero_failures_env).passed = false := by
  simp [execute_rule, generate_validation_sql, range_rule, zero_failures_env,
    generate_value_range_sql, total_count_of, Row.lookup, List.lookup,
    process_rule_result, process_value_range_result,
    RuleExecutionResult.finish, RuleExecutionResult.init]

/-- C3 (counterexample): when the queries and the result processing succeed
with a fully passing statistical comparison but the last-run stamp raises,
execute_rule seals a result whose error is set while passed is true and the
pass rate is 100 — error set does not force passed = false. -/
theorem C3_error_set_with_passed_true :
    (execute_rule stat_rule late_error_env).error = some "OSError: disk full" ∧
    (execute_rule stat_rule late_error_env).passed = true ∧
    (execute_rule stat_rule late_error_env).pass_rate = 100 := by
  simp [execute_rule, generate_validation_sql, stat_rule, late_error_env,
    generate_statistical_comparison_sql, total_count_of, Row.lookup,
    List.lookup, process_rule_result, process_statistical_comparison_result,
    Value.truthy, RuleExecutionResult.finish, RuleExecutionResult.init]

/-- C3 (amended): an exception raised at SQL generation, at the count query,
at count extraction, or at the validation query is caught and recorded, and
the sealed result then has passed = false and pass rate 0; an exception from
the later last-run stamp is also caught and recorded in error, but the
metrics computed by the completed processing stand. -/
theorem C3_amended_error_capture (rule : Rule) (env : QueryEnv) :
    (∀ e, generate_validation_sql "sqlite" rule = .error e →
      (execute_rule rule env).error = some e ∧
      (execute_rule rule env).passed = false ∧
      (execute_rule rule env).pass_rate = 0) ∧
    (∀ q e, generate_validation_sql "sqlite" rule = .ok q →
      env.count_outcome = .error e →
      (execute_rule rule env).error = some e ∧
      (execute_rule rule env).passed = false ∧
      (execute_rule rule env).pass_rate = 0) ∧
    (∀ q rows e, generate_validation_sql "sqlite" rule = .ok q →
      env.count_outcome = .ok rows → total_count_of rows = .error e →
      (execute_rule rule env).error = some e ∧
      (execute_rule rule env).passed = false ∧
      (execute_rule rule env).pass_rate = 0) ∧
    (∀ q rows n e, generate_validation_sql "sqlite" rule = .ok q →
      env.count_outcome = .ok rows → total_count_of rows = .ok n →
      env.validation_outcome = .error e →
      (execute_rule rule env).error = some e ∧
      (execute_rule rule env).passed = false ∧
      (execute_rule rule env).pass_rate = 0) ∧
    (∀ q rows n vrows r2 e, generate_validation_sql "sqlite" rule = .ok q →
      env.count_outcome = .ok rows → total_count_of rows = .ok n →
      env.validation_outcome = .ok vrows →
      process_rule_result rule vrows
          { RuleExecutionResult.init rule.name rule.id with total_records := n } =
        .ok r2 →
      env.update_last_run_outcome = .error e →
      (execute_rule rule env).error = some e) := by
  refine ⟨?_, ?_, ?_, ?_, ?_⟩
  · intro e hg
    unfold execute_rule
    simp only [hg]
    refine ⟨RuleExecutionResult.finish_error _, ?_, ?_⟩
    · exact (RuleExecutionResult.finish_of_zero_passed _ rfl).2
    · exact (RuleExecutionResult.finish_of_zero_passed _ rfl).1
  · intro q e hg hc
    unfold execute_rule
    simp only [hg, hc]
    refine ⟨RuleExecutionResult.finish_error _, ?_, ?_⟩
    · exact (RuleExecutionResult.finish_of_zero_passed _ rfl).2
    · exact (RuleExecutionResult.finish_of_zero_passed _ rfl).1
  · intro q rows e hg hc ht
    unfold execute_rule
    simp only [hg, hc, ht]
    refine ⟨RuleExecutionResult.finish_error _, ?_, ?_⟩
    · exact (RuleExecutionResult.finish_of_zero_passed _ rfl).2
    · exact (RuleExecutionResult.finish_of_zero_passed _ rfl).1
  · intro q rows n e hg hc ht hv
    unfold execute_rule
    simp only [hg, hc, ht, hv]
    refine ⟨RuleExecutionResult.finish_error _, ?_, ?_⟩
    · exact (RuleExecutionResult.finish_of_zero_passed _ rfl).2
    · exact (RuleExecutionResult.finish_of_zero_passed _ rfl).1
  · intro q rows n vrows r2 e hg hc ht hv hp hu
    unfold execute_rule
    simp only [hg, hc, ht, hv, hp, hu]
    exact RuleExecutionResult.finish_error _

/-- Witness for C3 (amended): a data_continuity execution whose count query
raises is sealed with the error recorded, passed false and rate 0. -/
theorem C3_amended_error_capture_witness :
    (execute_rule continuity_rule count_error_env).error =
      some "connection refused" ∧
    (execute_rule continuity_rule count_error_env).passed = false ∧
    (execute_rule continuity_rule count_error_env).pass_rate = 0 :=
  (C3_amended_error_capture continuity_rule count_error_env).2.1 _
    "connection refused" rfl rfl

/-- C8 (counterexample): with a window of 0 days and one entry timestamped
inside the window, generate_summary_report reaches the overall-score
division by days*10 and raises ZeroDivisionError instead of returning. -/
theorem C8_zero_window_raises :
    generate_summary_report [sample_entry] 0 0 =
      .error "ZeroDivisionError: division by zero" := by
  have hw : entry_in_window 0 0 sample_entry = true := by
    unfold entry_in_window sample_entry
    norm_num
  unfold generate_summary_report filtered_results
  simp [hw]

/-- C8 (amended): for every history and every window of a non-zero number of
days, generate_summary_report returns a report rather than raising: the
all-zero report when no entries fall in the window, and otherwise a report
whose overall score is min(100, avgPassRate*0.8 +
(totalExecutions/(windowDays*10))*0.2) and whose top_issues list is a
permutation of the per-rule issues sorted in descending order of failure
rate (failedExecutions/totalExecutions*100 per rule). -/
theorem C8_amended_summary (history : List HistoryEntry) (now : ℚ) (days : ℤ)
    (hd : days ≠ 0) :
    ∃ rep, generate_summary_report history now days = .ok rep ∧
      (filtered_results history now days = [] →
        rep = { overall_score := 0, total_rules := 0, avg_pass_rate := 0, total_executions := 0, top_issues := [] }) ∧
      (filtered_results history now days ≠ [] →
        rep.total_executions = (filtered_results history now days).length ∧
        rep.avg_pass_rate =
          ((filtered_results history now days).map (fun e => e.pass_rate)).sum /
            (((filtered_results history now days).length : ℕ) : ℚ) ∧
        rep.overall_score =
          min 100 (rep.avg_pass_rate * (8 / 10) +
            ((rep.total_executions : ℚ) / ((days : ℚ) * 10)) * (2 / 10)) ∧
        List.Sorted issue_ge rep.top_issues ∧
        rep.top_issues.Perm (unsorted_issues (filtered_results history now days)) ∧
        (∀ i ∈ rep.top_issues,
          i.failure_rate =
            (((((filtered_results history now days).filter
                  (fun e => e.rule_id = i.rule_id)).filter
                  (fun e => !e.passed)).length : ℕ) : ℚ) /
                ((((filtered_results history now days).filter
                  (fun e => e.rule_id = i.rule_id)).length : ℕ) : ℚ) * 100)) := by
  by_cases hf : filtered_results history now days = []
  · have heq : generate_summary_report history now days =
        .ok { overall_score := 0, total_rules := 0, avg_pass_rate := 0, total_executions := 0, top_issues := [] } := by
      unfold generate_summary_report
      simp [hf]
    exact ⟨_, heq, fun _ => rfl, fun hne => absurd hf hne⟩
  · have h10 : (days * 10 : ℤ) ≠ 0 := mul_ne_zero hd (by norm_num)
    have hm : (filtered_results history now days).map (fun e => e.pass_rate) ≠
        [] := by
      simpa using hf
    have heq : generate_summary_report history now days =
        .ok { overall_score := min 100 ((((filtered_results history now days).map (fun e => e.pass_rate)).sum / (((filtered_results history now days).map (fun e => e.pass_rate)).length : ℚ)) * (8 / 10) + (((filtered_results history now days).length : ℚ) / ((days : ℚ) * 10)) * (2 / 10)), total_rules := (distinct_keys ((filtered_results history now days).map (fun e => e.rule_id))).length, avg_pass_rate := ((filtered_results history now days).map (fun e => e.pass_rate)).sum / (((filtered_results history now days).map (fun e => e.pass_rate)).length : ℚ), total_executions := (filtered_results history now days).length, top_issues := (unsorted_issues (filtered_results history now days)).insertionSort issue_ge } := by
      unfold generate_summary_report
      simp only [if_neg hf, if_neg h10, if_neg hm]
    refine ⟨_, heq, fun h => absurd h hf, fun _ => ?_⟩
    refine ⟨rfl, ?_, ?_, ?_, ?_, ?_⟩
    · rw [List.length_map]
    · rfl
    · exact List.sorted_insertionSort issue_ge _
    · exact List.perm_insertionSort issue_ge _
    · intro i hi
      have hi2 : i ∈ unsorted_issues (filtered_results history now days) :=
        ((List.perm_insertionSort issue_ge _).mem_iff).mp hi
      obtain ⟨rid, _, hrid⟩ := List.mem_map.mp hi2
      subst hrid
      rfl

/-- Witness for C8 (amended) on the empty history with a 7-day window. -/
theorem C8_amended_summary_witness :
    generate_summary_report [] 0 7 =
      .ok { overall_score := 0, total_rules := 0, avg_pass_rate := 0, total_executions := 0, top_issues := [] } := by
  obtain ⟨rep, hrep, hz, _⟩ := C8_amended_summary [] 0 7 (by decide)
  rw [hz rfl] at hrep
  exact hrep

/-- C9 (counterexample): an empty filtered history yields zero daily buckets
— fewer than 2 — yet the trend direction is reported as stable, not
insufficient_data. -/
theorem C9_empty_history_direction :
    (generate_trend_report [] "r" 0 30).trend_data.length = 0 ∧
    (generate_trend_report [] "r" 0 30).trend_direction = "stable" := by
  constructor <;> rfl

/-- C9 (amended): the direction is insufficient_data exactly when one daily
bucket exists (an empty filtered set yields stable); with at least two
buckets the mean of the most recent at-most-7 daily points is compared, with
a 1-point dead band, against the mean of all earlier points when more than 7
buckets exist and against 0 otherwise. -/
theorem C9_amended_trend (history : List HistoryEntry) (rid : String)
    (now : ℚ) (days : ℤ) :
    (trend_filter history rid now days = [] →
      generate_trend_report history rid now days =
        { rule_id := rid, trend_data := [], average_pass_rate := 0, trend_direction := "stable" }) ∧
    ((generate_trend_report history rid now days).trend_data.length = 1 →
      (generate_trend_report history rid now days).trend_direction =
        "insufficient_data") ∧
    (2 ≤ (generate_trend_report history rid now days).trend_data.length →
      (generate_trend_report history rid now days).trend_direction =
        (if (if 7 < (generate_trend_report history rid now days).trend_data.length then daily_mean ((generate_trend_report history rid now days).trend_data.take ((generate_trend_report history rid now days).trend_data.length - 7)) else 0) + 1 < daily_mean ((generate_trend_report history rid now days).trend_data.drop ((generate_trend_report history rid now days).trend_data.length - 7)) then "improving"
         else if daily_mean ((generate_trend_report history rid now days).trend_data.drop ((generate_trend_report history rid now days).trend_data.length - 7)) < (if 7 < (generate_trend_report history rid now days).trend_data.length then daily_mean ((generate_trend_report history rid now days).trend_data.take ((generate_trend_report history rid now days).trend_data.length - 7)) else 0) - 1 then "declining"
         else "stable")) := by
  by_cases hf : trend_filter history rid now days = []
  · have heq : generate_trend_report history rid now days =
        { rule_id := rid, trend_data := [], average_pass_rate := 0, trend_direction := "stable" } := by
      unfold generate_trend_report
      simp [hf]
    refine ⟨fun _ => heq, ?_, ?_⟩
    · intro h1
      rw [heq] at h1
      simp at h1
    · intro h2
      rw [heq] at h2
      simp at h2
  · refine ⟨fun h => absurd h hf, ?_, ?_⟩
    · intro h1
      unfold generate_trend_report at h1 ⊢
      simp only [if_neg hf] at h1 ⊢
      rw [h1]
      norm_num
    · intro h2
      unfold generate_trend_report at h2 ⊢
      simp only [if_neg hf] at h2 ⊢
      rw [if_pos h2]
      have hdrop : (((trend_data_of (trend_filter history rid now days)).drop
          ((trend_data_of (trend_filter history rid now days)).length - 7)).length) =
          min 7 (trend_data_of (trend_filter history rid now days)).length := by
        rw [List.length_drop]
        omega
      have htake : (((trend_data_of (trend_filter history rid now days)).take
          ((trend_data_of (trend_filter history rid now days)).length - 7)).length) =
          (trend_data_of (trend_filter history rid now days)).length - 7 := by
        rw [List.length_take]
        omega
      unfold daily_mean
      rw [hdrop, htake]
      by_cases h7 : 7 < (trend_data_of (trend_filter history rid now days)).length
      · rw [if_pos h7]
        have hmax : max 1 ((trend_data_of (trend_filter history rid now days)).length - 7) =
            (trend_data_of (trend_filter history rid now days)).length - 7 := by
          omega
        rw [hmax]
      · rw [if_neg h7]
        have h0 : (trend_data_of (trend_filter history rid now days)).length - 7 = 0 := by
          omega
        rw [h0]
        simp

/-- Witness for C9 (amended): a one-entry history gives a single daily
bucket and the direction insufficient_data. -/
theorem C9_amended_trend_witness :
    (generate_trend_report [sample_entry] "1" 0 0).trend_direction =
      "insufficient_data" := by
  apply (C9_amended_trend [sample_entry] "1" 0 0).2.1
  simp [generate_trend_report, trend_filter, entry_in_window, sample_entry,
    trend_data_of, distinct_keys, first_occurrences, entry_day,
    List.insertionSort, List.orderedInsert]
